import Mathlib

/-!
Verification of `ginga/modes/contrast.py` (class `ContrastMode`).

The module implements a GUI interaction mode that adjusts the contrast and
brightness of an image viewer from mouse drags and keyboard shortcuts.  We
embed the viewer-facing state shallowly: the viewer's settings object is a
finite map from keys to rational values, events carry a state string and an
accepted flag, and each callback is a pure function from the mode state, the
viewer and the event to their updated values together with the Python return
value (`Option Bool`: `none` models Python `None`).  Python floats are
modelled by rationals; the division by the window size is guarded, returning
`none` when a window dimension is zero.
-/

/-- Settings map of the viewer (`viewer.get_settings()`): keys to values. -/
def SettingsMap := String → Option ℚ

/-- Embeds `viewer.get_settings().set(contrast=c, brightness=b)`. -/
def set_contrast_brightness (s : SettingsMap) (c b : ℚ) : SettingsMap :=
  fun k => if k = "contrast" then some c else if k = "brightness" then some b else s k

/-- Mode-level settings (`self.settings`), holding boolean flags such as
`msg_cmap` and `msg_contrast`; `settingsGet s k d` embeds `s.get(k, d)`. -/
def settingsGet (s : String → Option Bool) (k : String) (d : Bool) : Bool :=
  (s k).getD d

/-- The viewer object as seen by this mode: its settings map, the window size
returned by `get_window_size()`, the window cursor position returned by
`self.get_win_xy(viewer)`, and whether the bindings allow the `cmap`
feature (`bd.get_feature_allow('cmap')`). -/
structure Viewer where
  settings : SettingsMap
  win_wd : ℤ
  win_ht : ℤ
  win_x : ℤ
  win_y : ℤ
  cmap_allowed : Bool

/-- Mutable state of the `ContrastMode` object itself: the recorded drag
start position, the current onscreen message (`none` when erased), and the
mode's own settings object. -/
structure ModeState where
  _start_x : ℤ
  _start_y : ℤ
  onscreen : Option String
  mode_settings : String → Option Bool

/-- A UI event: its `state` string (`'down'`, `'move'`, `'up'`, ...) and
whether `event.accept()` has been called on it. -/
structure Event where
  state : String
  accepted : Bool

/-- Embeds `event.accept()`. -/
def Event.accept (e : Event) : Event := { e with accepted := true }

/-- The `cancmap` property: `self.viewer.get_bindings().get_feature_allow('cmap')`. -/
def cancmap (viewer : Viewer) : Bool := viewer.cmap_allowed

/-- Embeds `np.clip(v, lo, hi)` on integers. -/
def clip (v lo hi : ℤ) : ℤ := min hi (max v lo)

/-- Line 72: `contrast_pct = np.clip(y, 0, win_ht) / float(win_ht)`. -/
def contrast_pct (y win_ht : ℤ) : ℚ :=
  ((clip y 0 win_ht : ℤ) : ℚ) / ((win_ht : ℤ) : ℚ)

/-- Line 76: `brightness_pct = 1.0 - np.clip(x, 0, win_wd) / float(win_wd)`. -/
def brightness_pct (x win_wd : ℤ) : ℚ :=
  1 - ((clip x 0 win_wd : ℤ) : ℚ) / ((win_wd : ℤ) : ℚ)

/-- Embeds `ContrastMode._tweak_colormap(self, viewer, x, y, mode)`.  The
method reads the window size, converts the cursor position into a contrast
and a brightness percentage, and writes both into the viewer's settings.  It
never mutates `self`, so the mode state is returned unchanged.  A zero window
dimension makes the division ill-defined, modelled as `none`. -/
def _tweak_colormap (m : ModeState) (viewer : Viewer) (x y : ℤ) (mode : String) :
    Option (ModeState × Viewer) :=
  let win_wd := viewer.win_wd
  let win_ht := viewer.win_ht
  if win_ht = 0 ∨ win_wd = 0 then none
  else some (m, { viewer with
    settings := set_contrast_brightness viewer.settings
      (contrast_pct y win_ht) (brightness_pct x win_wd) })

/-- Embeds `ContrastMode.restore_contrast(self, viewer, msg=True)`:
sets `contrast=0.5, brightness=0.5` in the viewer settings, optionally shows
an onscreen message, and returns `True`. -/
def restore_contrast (m : ModeState) (viewer : Viewer) (msg : Bool) :
    ModeState × Viewer × Bool :=
  let viewer' := { viewer with
    settings := set_contrast_brightness viewer.settings (1/2) (1/2) }
  let msg' := settingsGet m.mode_settings "msg_cmap" msg
  let m' := if msg' then { m with onscreen := some "Restored contrast" } else m
  (m', viewer', true)

/-- Embeds `ContrastMode.kp_contrast_restore(self, viewer, event, data_x,
data_y, msg=True)`.  Returns `some false` when the `cmap` feature is not
allowed; otherwise accepts the event and restores the contrast (the method
falls off the end, returning Python `None`, modelled as `none`). -/
def kp_contrast_restore (m : ModeState) (viewer : Viewer) (event : Event)
    (data_x data_y : ℤ) (msg : Bool) : ModeState × Viewer × Event × Option Bool :=
  if cancmap viewer = false then (m, viewer, event, some false)
  else
    let event' := event.accept
    let msg' := settingsGet m.mode_settings "msg_cmap" msg
    let r := restore_contrast m viewer msg'
    (r.1, r.2.1, event', none)

/-- Embeds `ContrastMode.ms_contrast(self, viewer, event, data_x, data_y,
msg=True)`: dispatch on `event.state`, tweaking the colormap on `'move'`,
recording the drag start on `'down'`, and erasing the message otherwise. -/
def ms_contrast (m : ModeState) (viewer : Viewer) (event : Event)
    (data_x data_y : ℤ) (msg : Bool) :
    Option (ModeState × Viewer × Event × Option Bool) :=
  if cancmap viewer = false then some (m, viewer, event, some false)
  else
    let event' := event.accept
    let msg' := settingsGet m.mode_settings "msg_contrast" msg
    let x := viewer.win_x
    let y := viewer.win_y
    if event.state = "move" then
      (_tweak_colormap m viewer x y "preview").map
        (fun p => (p.1, p.2, event', (none : Option Bool)))
    else if event.state = "down" then
      let m' := { m with _start_x := x, _start_y := y }
      let m'' := if msg' then
          { m' with onscreen := some "Shift and stretch colormap (drag mouse)" }
        else m'
      some (m'', viewer, event', none)
    else
      some ({ m with onscreen := none }, viewer, event', none)

/-- Embeds `ContrastMode.ms_contrast_restore(self, viewer, event, data_x,
data_y, msg=True)`: restores the contrast on a `'down'` event. -/
def ms_contrast_restore (m : ModeState) (viewer : Viewer) (event : Event)
    (data_x data_y : ℤ) (msg : Bool) : ModeState × Viewer × Event × Option Bool :=
  if cancmap viewer = false then (m, viewer, event, some false)
  else
    let event' := event.accept
    if event.state = "down" then
      let r := restore_contrast m viewer msg
      (r.1, r.2.1, event', none)
    else (m, viewer, event', none)

/-- The `self.actions` dict built by `ContrastMode.__init__`, as an
association list in insertion order. -/
def actions : List (String × List (Option String)) :=
  [("dmod_contrast", [some "__t", none, none]),
   ("kp_contrast_restore", [some "T", some "contrast+t", some "contrast+T"]),
   ("ms_contrast", [some "contrast+left", some "ctrl+right"]),
   ("ms_contrast_restore", [some "contrast+right", some "ctrl+middle"])]

/-- A concrete mode state used to instantiate theorems. -/
def mode0 : ModeState :=
  { _start_x := 0, _start_y := 0, onscreen := none, mode_settings := fun _ => none }

/-- A concrete viewer used to instantiate theorems. -/
def viewer0 : Viewer :=
  { settings := fun _ => none, win_wd := 4, win_ht := 3,
    win_x := 1, win_y := 2, cmap_allowed := true }

/-- A concrete viewer whose bindings forbid the `cmap` feature. -/
def viewerNoCmap : Viewer := { viewer0 with cmap_allowed := false }

/-- A second concrete viewer with the same window size as `viewer0` but
different settings, cursor position and feature flags. -/
def viewerAlt : Viewer :=
  { settings := fun _ => some 7, win_wd := 4, win_ht := 3,
    win_x := 9, win_y := 9, cmap_allowed := false }

/-- A concrete `'move'` event. -/
def eventMove : Event := { state := "move", accepted := false }

/-- A concrete `'down'` event. -/
def eventDown : Event := { state := "down", accepted := false }

-- ### Helper lemmas

lemma clip_nonneg (v hi : ℤ) (h : 0 ≤ hi) : 0 ≤ clip v 0 hi :=
  le_min h (le_max_right v 0)

lemma clip_le (v hi : ℤ) : clip v 0 hi ≤ hi := min_le_left hi _

lemma contrast_pct_nonneg (y ht : ℤ) (h : 0 < ht) : 0 ≤ contrast_pct y ht := by
  have h0 : (0 : ℚ) < (ht : ℚ) := by exact_mod_cast h
  apply div_nonneg _ h0.le
  exact_mod_cast clip_nonneg y ht h.le

lemma contrast_pct_le_one (y ht : ℤ) (h : 0 < ht) : contrast_pct y ht ≤ 1 := by
  have h0 : (0 : ℚ) < (ht : ℚ) := by exact_mod_cast h
  rw [contrast_pct, div_le_one h0]
  exact_mod_cast clip_le y ht

lemma brightness_pct_nonneg (x wd : ℤ) (h : 0 < wd) : 0 ≤ brightness_pct x wd := by
  have := contrast_pct_le_one x wd h
  rw [contrast_pct] at this
  rw [brightness_pct]
  linarith

lemma brightness_pct_le_one (x wd : ℤ) (h : 0 < wd) : brightness_pct x wd ≤ 1 := by
  have := contrast_pct_nonneg x wd h
  rw [contrast_pct] at this
  rw [brightness_pct]
  linarith

lemma tweak_eq (m : ModeState) (v : Viewer) (x y : ℤ) (mode : String)
    (hw : 0 < v.win_wd) (hh : 0 < v.win_ht) :
    _tweak_colormap m v x y mode = some (m, { v with
      settings := set_contrast_brightness v.settings
        (contrast_pct y v.win_ht) (brightness_pct x v.win_wd) }) := by
  unfold _tweak_colormap
  rw [if_neg]
  push_neg
  exact ⟨hh.ne', hw.ne'⟩

lemma scb_contrast (s : SettingsMap) (c b : ℚ) :
    set_contrast_brightness s c b "contrast" = some c := rfl

lemma scb_brightness (s : SettingsMap) (c b : ℚ) :
    set_contrast_brightness s c b "brightness" = some b := by
  unfold set_contrast_brightness
  rw [if_neg (by decide), if_pos rfl]

lemma scb_other (s : SettingsMap) (c b : ℚ) (k : String)
    (hc : k ≠ "contrast") (hb : k ≠ "brightness") :
    set_contrast_brightness s c b k = s k := by
  unfold set_contrast_brightness
  rw [if_neg hc, if_neg hb]

lemma ms_contrast_move (m : ModeState) (v : Viewer) (e : Event) (dx dy : ℤ)
    (msg : Bool) (hc : cancmap v = true) (hs : e.state = "move")
    (hw : 0 < v.win_wd) (hh : 0 < v.win_ht) :
    ms_contrast m v e dx dy msg = some (m, { v with
      settings := set_contrast_brightness v.settings
        (contrast_pct v.win_y v.win_ht) (brightness_pct v.win_x v.win_wd) },
      e.accept, none) := by
  simp [ms_contrast, hc, hs, tweak_eq m v v.win_x v.win_y "preview" hw hh]

lemma ms_contrast_down (m : ModeState) (v : Viewer) (e : Event) (dx dy : ℤ)
    (msg : Bool) (hc : cancmap v = true) (hs : e.state = "down") :
    ms_contrast m v e dx dy msg = some
      ((if settingsGet m.mode_settings "msg_contrast" msg then
          { m with
            _start_x := v.win_x, _start_y := v.win_y,
            onscreen := some "Shift and stretch colormap (drag mouse)" }
        else { m with _start_x := v.win_x, _start_y := v.win_y }),
       v, e.accept, none) := by
  have hs' : e.state ≠ "move" := by rw [hs]; decide
  simp [ms_contrast, hc, hs, hs']

lemma ms_contrast_other (m : ModeState) (v : Viewer) (e : Event) (dx dy : ℤ)
    (msg : Bool) (hc : cancmap v = true) (h1 : e.state ≠ "move")
    (h2 : e.state ≠ "down") :
    ms_contrast m v e dx dy msg =
      some ({ m with onscreen := none }, v, e.accept, none) := by
  simp [ms_contrast, hc, h1, h2]

-- ### Claim theorems

/-- C1: for every cursor position and every positive window size, the two
parameters `_tweak_colormap` writes into the viewer's settings — the contrast
value and the brightness value — both lie in the closed interval [0, 1]. -/
theorem tweak_colormap_normalized (m : ModeState) (v : Viewer) (x y : ℤ)
    (mode : String) (hw : 0 < v.win_wd) (hh : 0 < v.win_ht) :
    ∃ p : ModeState × Viewer, _tweak_colormap m v x y mode = some p ∧
      p.2.settings "contrast" = some (contrast_pct y v.win_ht) ∧
      p.2.settings "brightness" = some (brightness_pct x v.win_wd) ∧
      0 ≤ contrast_pct y v.win_ht ∧ contrast_pct y v.win_ht ≤ 1 ∧
      0 ≤ brightness_pct x v.win_wd ∧ brightness_pct x v.win_wd ≤ 1 := by
  refine ⟨_, tweak_eq m v x y mode hw hh,
    scb_contrast v.settings (contrast_pct y v.win_ht) (brightness_pct x v.win_wd),
    scb_brightness v.settings (contrast_pct y v.win_ht) (brightness_pct x v.win_wd),
    contrast_pct_nonneg y v.win_ht hh, contrast_pct_le_one y v.win_ht hh,
    brightness_pct_nonneg x v.win_wd hw, brightness_pct_le_one x v.win_wd hw⟩

/-- Witness for C1 at a concrete viewer of window size 4 × 3 and cursor (1, 2). -/
theorem tweak_colormap_normalized_witness :
    ∃ p : ModeState × Viewer, _tweak_colormap mode0 viewer0 1 2 "preview" = some p ∧
      p.2.settings "contrast" = some (contrast_pct 2 viewer0.win_ht) ∧
      p.2.settings "brightness" = some (brightness_pct 1 viewer0.win_wd) ∧
      0 ≤ contrast_pct 2 viewer0.win_ht ∧ contrast_pct 2 viewer0.win_ht ≤ 1 ∧
      0 ≤ brightness_pct 1 viewer0.win_wd ∧ brightness_pct 1 viewer0.win_wd ≤ 1 :=
  tweak_colormap_normalized mode0 viewer0 1 2 "preview" (by decide) (by decide)

/-- C2 as stated is false: the code clips the cursor position to the window
before dividing, so at cursor y = -1 with win_ht = 2 the contrast percentage
is 0, not y / win_ht = -1/2, and at x = -1 with win_wd = 2 the brightness
percentage is 1, not 1 - x / win_wd = 3/2. -/
theorem tweak_mapping_counterexample :
    contrast_pct (-1) 2 ≠ ((-1 : ℤ) : ℚ) / ((2 : ℤ) : ℚ) ∧
    brightness_pct (-1) 2 ≠ 1 - ((-1 : ℤ) : ℚ) / ((2 : ℤ) : ℚ) := by
  have h : clip (-1) 0 2 = 0 := by decide
  constructor
  · rw [contrast_pct, h]; norm_num
  · rw [brightness_pct, h]; norm_num

/-- C2 amended: the mapping first clips the cursor coordinates to the
window, and on cursor positions inside the window it is exactly the claimed
linear map: the contrast percentage equals y / win_ht and the brightness
percentage equals 1 - x / win_wd. -/
theorem tweak_mapping_linear (x y wd ht : ℤ) (hwd : 0 < wd) (hht : 0 < ht)
    (hy0 : 0 ≤ y) (hy1 : y ≤ ht) (hx0 : 0 ≤ x) (hx1 : x ≤ wd) :
    contrast_pct y ht = ((y : ℤ) : ℚ) / ((ht : ℤ) : ℚ) ∧
    brightness_pct x wd = 1 - ((x : ℤ) : ℚ) / ((wd : ℤ) : ℚ) := by
  have hcy : clip y 0 ht = y := by
    unfold clip; rw [max_eq_left hy0, min_eq_right hy1]
  have hcx : clip x 0 wd = x := by
    unfold clip; rw [max_eq_left hx0, min_eq_right hx1]
  exact ⟨by rw [contrast_pct, hcy], by rw [brightness_pct, hcx]⟩

/-- Witness for the amended C2 at cursor (1, 1) in a 2 × 2 window. -/
theorem tweak_mapping_linear_witness :
    contrast_pct 1 2 = ((1 : ℤ) : ℚ) / ((2 : ℤ) : ℚ) ∧
    brightness_pct 1 2 = 1 - ((1 : ℤ) : ℚ) / ((2 : ℤ) : ℚ) :=
  tweak_mapping_linear 1 1 2 2 (by decide) (by decide)
    (by decide) (by decide) (by decide) (by decide)

/-- C3: with the cmap feature allowed, `ms_contrast` on a `'move'` event
writes contrast and brightness values computed from the current window
cursor position; on a `'down'` event it leaves the contrast and brightness
settings unchanged and records the drag start position; on any other state
it also leaves the settings unchanged. -/
theorem ms_contrast_dispatch (m : ModeState) (v : Viewer) (e : Event)
    (dx dy : ℤ) (msg : Bool) (hc : cancmap v = true) :
    (e.state = "move" → 0 < v.win_wd → 0 < v.win_ht →
      ∃ r : ModeState × Viewer × Event × Option Bool,
        ms_contrast m v e dx dy msg = some r ∧
        r.2.1.settings "contrast" = some (contrast_pct v.win_y v.win_ht) ∧
        r.2.1.settings "brightness" = some (brightness_pct v.win_x v.win_wd)) ∧
    (e.state = "down" →
      ∃ r : ModeState × Viewer × Event × Option Bool,
        ms_contrast m v e dx dy msg = some r ∧
        r.2.1 = v ∧ r.1._start_x = v.win_x ∧ r.1._start_y = v.win_y) ∧
    (e.state ≠ "move" → e.state ≠ "down" →
      ms_contrast m v e dx dy msg =
        some ({ m with onscreen := none }, v, e.accept, none)) := by
  refine ⟨?_, ?_, ms_contrast_other m v e dx dy msg hc⟩
  · intro hs hw hh
    exact ⟨_, ms_contrast_move m v e dx dy msg hc hs hw hh,
      scb_contrast v.settings (contrast_pct v.win_y v.win_ht)
        (brightness_pct v.win_x v.win_wd),
      scb_brightness v.settings (contrast_pct v.win_y v.win_ht)
        (brightness_pct v.win_x v.win_wd)⟩
  · intro hs
    refine ⟨_, ms_contrast_down m v e dx dy msg hc hs, rfl, ?_, ?_⟩
    · by_cases hmsg : settingsGet m.mode_settings "msg_contrast" msg = true <;>
        simp [hmsg]
    · by_cases hmsg : settingsGet m.mode_settings "msg_contrast" msg = true <;>
        simp [hmsg]

/-- Witness for C3: the `'move'` and `'down'` branches at a concrete viewer. -/
theorem ms_contrast_dispatch_witness :
    (∃ r : ModeState × Viewer × Event × Option Bool,
      ms_contrast mode0 viewer0 eventMove 0 0 true = some r ∧
      r.2.1.settings "contrast" = some (contrast_pct viewer0.win_y viewer0.win_ht) ∧
      r.2.1.settings "brightness" = some (brightness_pct viewer0.win_x viewer0.win_wd)) ∧
    (∃ r : ModeState × Viewer × Event × Option Bool,
      ms_contrast mode0 viewer0 eventDown 0 0 true = some r ∧
      r.2.1 = viewer0 ∧ r.1._start_x = viewer0.win_x ∧ r.1._start_y = viewer0.win_y) :=
  ⟨(ms_contrast_dispatch mode0 viewer0 eventMove 0 0 true rfl).1 rfl
      (by decide) (by decide),
   (ms_contrast_dispatch mode0 viewer0 eventDown 0 0 true rfl).2.1 rfl⟩

/-- C4: with the cmap feature allowed, a `kp_contrast_restore` keyboard
invocation writes both the contrast and the brightness setting of the
viewer (restoring each to 1/2). -/
theorem kp_contrast_restore_writes (m : ModeState) (v : Viewer) (e : Event)
    (dx dy : ℤ) (msg : Bool) (hc : cancmap v = true) :
    (kp_contrast_restore m v e dx dy msg).2.1.settings "contrast" = some (1/2) ∧
    (kp_contrast_restore m v e dx dy msg).2.1.settings "brightness" = some (1/2) := by
  simp [kp_contrast_restore, hc, restore_contrast, scb_contrast, scb_brightness]

/-- Witness for C4 at a concrete viewer allowing the cmap feature. -/
theorem kp_contrast_restore_writes_witness :
    (kp_contrast_restore mode0 viewer0 eventDown 0 0 true).2.1.settings "contrast"
      = some (1/2) ∧
    (kp_contrast_restore mode0 viewer0 eventDown 0 0 true).2.1.settings "brightness"
      = some (1/2) :=
  kp_contrast_restore_writes mode0 viewer0 eventDown 0 0 true rfl

/-- C5: `restore_contrast` sets the viewer's contrast setting to exactly 1/2
and the brightness setting to exactly 1/2 and returns `True`; via
`ms_contrast_restore` this restore happens only when event.state is
`'down'` (on any other state the settings are untouched, and on `'down'`
with the cmap feature allowed they are restored). -/
theorem restore_contrast_halves (m : ModeState) (v : Viewer) (msg : Bool)
    (e : Event) (dx dy : ℤ) :
    (restore_contrast m v msg).2.1.settings "contrast" = some (1/2) ∧
    (restore_contrast m v msg).2.1.settings "brightness" = some (1/2) ∧
    (restore_contrast m v msg).2.2 = true ∧
    (e.state ≠ "down" →
      (ms_contrast_restore m v e dx dy msg).2.1.settings = v.settings) ∧
    (cancmap v = true → e.state = "down" →
      (ms_contrast_restore m v e dx dy msg).2.1.settings "contrast" = some (1/2) ∧
      (ms_contrast_restore m v e dx dy msg).2.1.settings "brightness" = some (1/2)) := by
  refine ⟨?_, ?_, rfl, ?_, ?_⟩
  · simp [restore_contrast, scb_contrast]
  · simp [restore_contrast, scb_brightness]
  · intro h
    by_cases hc : cancmap v = false
    · simp [ms_contrast_restore, hc]
    · simp [ms_contrast_restore, hc, h]
  · intro hc hs
    constructor <;>
      simp [ms_contrast_restore, hc, hs, restore_contrast,
        scb_contrast, scb_brightness]

/-- Witness for C5: the restore at a concrete viewer, a non-`'down'` mouse
event leaving the settings alone, and a `'down'` mouse event restoring them. -/
theorem restore_contrast_halves_witness :
    (restore_contrast mode0 viewer0 true).2.1.settings "contrast" = some (1/2) ∧
    (ms_contrast_restore mode0 viewer0 eventMove 0 0 true).2.1.settings
      = viewer0.settings ∧
    (ms_contrast_restore mode0 viewer0 eventDown 0 0 true).2.1.settings "contrast"
      = some (1/2) :=
  ⟨(restore_contrast_halves mode0 viewer0 true eventMove 0 0).1,
   (restore_contrast_halves mode0 viewer0 true eventMove 0 0).2.2.2.1 (by decide),
   ((restore_contrast_halves mode0 viewer0 true eventDown 0 0).2.2.2.2 rfl rfl).1⟩

/-- C6: when the cmap feature is not allowed, each of the three callbacks
returns `False`, leaves the event unaccepted, and leaves the mode state and
the viewer (hence all its settings) entirely unchanged. -/
theorem cmap_not_allowed_rejects (m : ModeState) (v : Viewer) (e : Event)
    (dx dy : ℤ) (msg : Bool) (hc : cancmap v = false) :
    kp_contrast_restore m v e dx dy msg = (m, v, e, some false) ∧
    ms_contrast m v e dx dy msg = some (m, v, e, some false) ∧
    ms_contrast_restore m v e dx dy msg = (m, v, e, some false) := by
  refine ⟨?_, ?_, ?_⟩ <;>
    simp [kp_contrast_restore, ms_contrast, ms_contrast_restore, hc]

/-- Witness for C6 at a concrete viewer forbidding the cmap feature. -/
theorem cmap_not_allowed_rejects_witness :
    kp_contrast_restore mode0 viewerNoCmap eventDown 0 0 true
      = (mode0, viewerNoCmap, eventDown, some false) ∧
    ms_contrast mode0 viewerNoCmap eventDown 0 0 true
      = some (mode0, viewerNoCmap, eventDown, some false) ∧
    ms_contrast_restore mode0 viewerNoCmap eventDown 0 0 true
      = (mode0, viewerNoCmap, eventDown, some false) :=
  cmap_not_allowed_rejects mode0 viewerNoCmap eventDown 0 0 true rfl

/-- C7: `_tweak_colormap` divides by the window height and width; under the
precondition that both are positive the division-by-zero branch is
unreachable and the computation is defined. -/
theorem tweak_colormap_divisions_defined (m : ModeState) (v : Viewer)
    (x y : ℤ) (mode : String) (hw : 0 < v.win_wd) (hh : 0 < v.win_ht) :
    (_tweak_colormap m v x y mode).isSome = true := by
  rw [tweak_eq m v x y mode hw hh]; rfl

/-- Witness for C7 at a concrete viewer of window size 4 × 3. -/
theorem tweak_colormap_divisions_defined_witness :
    (_tweak_colormap mode0 viewer0 1 2 "preview").isSome = true :=
  tweak_colormap_divisions_defined mode0 viewer0 1 2 "preview"
    (by decide) (by decide)

/-- C8: `_tweak_colormap` modifies only the contrast and brightness entries
of the viewer's settings: every other settings entry, every other viewer
field, and the whole mode state are left unchanged. -/
theorem tweak_colormap_frame (m : ModeState) (v : Viewer) (x y : ℤ)
    (mode : String) (hw : 0 < v.win_wd) (hh : 0 < v.win_ht) :
    ∃ v' : Viewer, _tweak_colormap m v x y mode = some (m, v') ∧
      (∀ k : String, k ≠ "contrast" → k ≠ "brightness" →
        v'.settings k = v.settings k) ∧
      v'.win_wd = v.win_wd ∧ v'.win_ht = v.win_ht ∧
      v'.win_x = v.win_x ∧ v'.win_y = v.win_y ∧
      v'.cmap_allowed = v.cmap_allowed := by
  refine ⟨_, tweak_eq m v x y mode hw hh, ?_, rfl, rfl, rfl, rfl, rfl⟩
  intro k hkc hkb
  exact scb_other v.settings (contrast_pct y v.win_ht)
    (brightness_pct x v.win_wd) k hkc hkb

/-- Witness for C8 at a concrete viewer of window size 4 × 3. -/
theorem tweak_colormap_frame_witness :
    ∃ v' : Viewer, _tweak_colormap mode0 viewer0 1 2 "preview" = some (mode0, v') ∧
      (∀ k : String, k ≠ "contrast" → k ≠ "brightness" →
        v'.settings k = viewer0.settings k) ∧
      v'.win_wd = viewer0.win_wd ∧ v'.win_ht = viewer0.win_ht ∧
      v'.win_x = viewer0.win_x ∧ v'.win_y = viewer0.win_y ∧
      v'.cmap_allowed = viewer0.cmap_allowed :=
  tweak_colormap_frame mode0 viewer0 1 2 "preview" (by decide) (by decide)

/-- C9: the binding table built by `__init__` is exactly the enumeration of
the four actions with their key and mouse bindings, in order. -/
theorem actions_bindings :
    actions.lookup "dmod_contrast" = some [some "__t", none, none] ∧
    actions.lookup "kp_contrast_restore"
      = some [some "T", some "contrast+t", some "contrast+T"] ∧
    actions.lookup "ms_contrast" = some [some "contrast+left", some "ctrl+right"] ∧
    actions.lookup "ms_contrast_restore"
      = some [some "contrast+right", some "ctrl+middle"] ∧
    actions.map Prod.fst
      = ["dmod_contrast", "kp_contrast_restore", "ms_contrast",
         "ms_contrast_restore"] :=
  ⟨rfl, rfl, rfl, rfl, rfl⟩

/-- C10: the contrast and brightness values written by `_tweak_colormap`
are a deterministic function of the cursor position and the window size:
two invocations agreeing on those write identical values, whatever the rest
of the viewer or mode state is. -/
theorem tweak_colormap_deterministic (m₁ m₂ : ModeState) (v₁ v₂ : Viewer)
    (x y : ℤ) (mode₁ mode₂ : String)
    (hwd : v₁.win_wd = v₂.win_wd) (hht : v₁.win_ht = v₂.win_ht)
    (hw : 0 < v₁.win_wd) (hh : 0 < v₁.win_ht) :
    ∃ p₁ p₂ : ModeState × Viewer,
      _tweak_colormap m₁ v₁ x y mode₁ = some p₁ ∧
      _tweak_colormap m₂ v₂ x y mode₂ = some p₂ ∧
      p₁.2.settings "contrast" = p₂.2.settings "contrast" ∧
      p₁.2.settings "brightness" = p₂.2.settings "brightness" := by
  refine ⟨_, _, tweak_eq m₁ v₁ x y mode₁ hw hh,
    tweak_eq m₂ v₂ x y mode₂ (hwd ▸ hw) (hht ▸ hh), ?_, ?_⟩
  · simp only [scb_contrast, hht]
  · simp only [scb_brightness, hwd]

/-- Witness for C10: two viewers sharing only the window size. -/
theorem tweak_colormap_deterministic_witness :
    ∃ p₁ p₂ : ModeState × Viewer,
      _tweak_colormap mode0 viewer0 1 2 "preview" = some p₁ ∧
      _tweak_colormap mode0 viewerAlt 1 2 "other" = some p₂ ∧
      p₁.2.settings "contrast" = p₂.2.settings "contrast" ∧
      p₁.2.settings "brightness" = p₂.2.settings "brightness" :=
  tweak_colormap_deterministic mode0 mode0 viewer0 viewerAlt 1 2 "preview" "other"
    rfl rfl (by decide) (by decide)
